import Mathlib

/-!
Shallow embedding of the MathFlow visual-interaction core
(`assets/js/visuals.js`) and proofs about its widget geometry,
constraint strategies, animator and parsing helpers.

JS numbers are modelled as rationals (`ℚ`); NaN-carrying values use the
`JSNum` type.  The circle-handle strategy, which uses transcendental
trigonometry, is modelled over `ℝ`.
-/

namespace Visuals

/-- JS `Math.round`: round half toward positive infinity. -/
def jsRound (q : ℚ) : ℤ := ⌊q + 1/2⌋

/-! ### Riemann-sum slider (`handleRiemannSliderDrag`) -/

/-- The clamp of the raw pointer x to the slider track, as in the source:
`if (x < 300) x = 300; if (x > 700) x = 700;`. -/
def sliderClampX (rawX : ℚ) : ℚ :=
  let x := rawX
  let x := if x < 300 then (300 : ℚ) else x
  let x := if x > 700 then (700 : ℚ) else x
  x

/-- `handleRiemannSliderDrag`: returns the element position `(x, 100)` and
the computed rectangle count `n = Math.round(2 + percent * 48)` with
`percent = (x - 300) / 400`. -/
def handleRiemannSliderDrag (rawX : ℚ) : (ℚ × ℚ) × ℤ :=
  let y : ℚ := 100
  let x := sliderClampX rawX
  let percent := (x - 300) / 400
  let n := jsRound (2 + percent * 48)
  ((x, y), n)

/-- The slider value `N` computed by `handleRiemannSliderDrag`. -/
def sliderN (rawX : ℚ) : ℤ := (handleRiemannSliderDrag rawX).2

/-! ### Coordinate grid finalize step (`DRAG_STRATEGIES['grid-point'].onEnd`) -/

/-- Finalize step of the grid-point drag strategy: round the release
position to grid indices (grid unit 50px, origin (500,500), screen Y
inverted) and snap to the corresponding pixel position. -/
def gridPointOnEnd (pos : ℚ × ℚ) : ℚ × ℚ :=
  let gridX := jsRound ((pos.1 - 500) / 50)
  let gridY := jsRound ((500 - pos.2) / 50)
  let snapX := 500 + (gridX : ℚ) * 50
  let snapY := 500 - (gridY : ℚ) * 50
  (snapX, snapY)

/-! ### Slope scanner (`handleSlopeScannerDrag`) -/

/-- `handleSlopeScannerDrag`: derive math-x from screen-x, clamp to
`[-3, 3]`, and place the element on the parabola.  Returns the clamped
math-x together with the screen position; `rawY` is ignored exactly as in
the source. -/
def handleSlopeScannerDrag (rawX rawY : ℚ) : ℚ × (ℚ × ℚ) :=
  let mathX := (rawX - 500) / 100
  let mathX := if mathX < -3 then (-3 : ℚ) else mathX
  let mathX := if mathX > 3 then (3 : ℚ) else mathX
  let mathY := mathX * mathX
  let screenX := 500 + mathX * 100
  let screenY := 800 - mathY * 100
  (mathX, (screenX, screenY))

/-! ### Facts about `jsRound` -/

theorem jsRound_mono {a b : ℚ} (h : a ≤ b) : jsRound a ≤ jsRound b :=
  Int.floor_le_floor (by linarith)

theorem sliderClampX_mono {a b : ℚ} (h : a ≤ b) :
    sliderClampX a ≤ sliderClampX b := by
  simp only [sliderClampX]
  split_ifs <;> linarith

theorem sliderClampX_mem (rawX : ℚ) :
    300 ≤ sliderClampX rawX ∧ sliderClampX rawX ≤ 700 := by
  simp only [sliderClampX]
  split_ifs <;> constructor <;> linarith

/-- C3: the Riemann slider value `N` is monotone non-decreasing in the raw
pointer x, equals 2 at x = 300 and 50 at x = 700, and for every raw
pointer x (clamping included) is an integer in `[2, 50]`. -/
theorem riemann_slider_spec :
    (∀ a b : ℚ, a ≤ b → sliderN a ≤ sliderN b) ∧
    sliderN 300 = 2 ∧ sliderN 700 = 50 ∧
    (∀ rawX : ℚ, 2 ≤ sliderN rawX ∧ sliderN rawX ≤ 50) := by
  refine ⟨?_, ?_, ?_, ?_⟩
  · intro a b h
    have hc := sliderClampX_mono h
    exact jsRound_mono (by linarith)
  · show jsRound (2 + (sliderClampX 300 - 300) / 400 * 48) = 2
    norm_num [sliderClampX, jsRound]
  · show jsRound (2 + (sliderClampX 700 - 300) / 400 * 48) = 50
    norm_num [sliderClampX, jsRound]
  · intro rawX
    obtain ⟨h1, h2⟩ := sliderClampX_mem rawX
    constructor
    · have : (2 : ℤ) = jsRound (2 : ℚ) := by norm_num [jsRound]
      rw [this]
      exact jsRound_mono (by
        have : 0 ≤ (sliderClampX rawX - 300) / 400 * 48 := by
          apply mul_nonneg _ (by norm_num)
          apply div_nonneg (by linarith) (by norm_num)
        linarith)
    · have h50 : jsRound (50 : ℚ) = 50 := by norm_num [jsRound]
      rw [← h50]
      exact jsRound_mono (by
        have : (sliderClampX rawX - 300) / 400 * 48 ≤ 48 := by
          rw [div_mul_eq_mul_div, div_le_iff (by norm_num)]
          linarith
        linarith)

/-- Witness for `riemann_slider_spec`: concrete instantiation of its
quantified implications. -/
theorem riemann_slider_spec_witness :
    ((400 : ℚ) ≤ 600 ∧ sliderN 400 ≤ sliderN 600) ∧ sliderN 300 = 2 :=
  ⟨⟨by norm_num, riemann_slider_spec.1 400 600 (by norm_num)⟩,
    riemann_slider_spec.2.1⟩

/-- C4: for every continuous release position, the grid-point finalize
step leaves the point at an exact integer multiple of the 50px grid unit
offset from the origin (500,500) on both axes, with indices obtained by
rounding and screen Y inverted. -/
theorem grid_snap_spec (pos : ℚ × ℚ) :
    ∃ gx gy : ℤ,
      (gridPointOnEnd pos).1 - 500 = (gx : ℚ) * 50 ∧
      (gridPointOnEnd pos).2 - 500 = -((gy : ℚ) * 50) ∧
      gx = jsRound ((pos.1 - 500) / 50) ∧
      gy = jsRound ((500 - pos.2) / 50) := by
  refine ⟨jsRound ((pos.1 - 500) / 50), jsRound ((500 - pos.2) / 50),
    ?_, ?_, rfl, rfl⟩ <;> simp [gridPointOnEnd] <;> ring

/-- C6: the slope-scanner math-x is the boundary value whenever the
derived math-x leaves `[-3, 3]`, always lies in `[-3, 3]`, and the
element is placed on the parabola at
`(500 + mathX * 100, 800 - mathX² * 100)`. -/
theorem slope_scanner_clamp_spec (rawX rawY : ℚ) :
    ((rawX - 500) / 100 < -3 → (handleSlopeScannerDrag rawX rawY).1 = -3) ∧
    ((rawX - 500) / 100 > 3 → (handleSlopeScannerDrag rawX rawY).1 = 3) ∧
    (-3 ≤ (handleSlopeScannerDrag rawX rawY).1 ∧
      (handleSlopeScannerDrag rawX rawY).1 ≤ 3) ∧
    (handleSlopeScannerDrag rawX rawY).2 =
      (500 + (handleSlopeScannerDrag rawX rawY).1 * 100,
        800 - (handleSlopeScannerDrag rawX rawY).1 *
          (handleSlopeScannerDrag rawX rawY).1 * 100) := by
  unfold handleSlopeScannerDrag
  refine ⟨?_, ?_, ?_, ?_⟩ <;> simp only <;> split_ifs <;>
    first
      | (intro h; linarith)
      | (constructor <;> linarith)
      | rfl
      | (intro h; rfl)

/-- Witness for `slope_scanner_clamp_spec`: at rawX = 0 the derived
math-x is −5 < −3 and the result is clamped to −3. -/
theorem slope_scanner_clamp_spec_witness :
    ((0 : ℚ) - 500) / 100 < -3 ∧ (handleSlopeScannerDrag 0 0).1 = -3 :=
  ⟨by norm_num, (slope_scanner_clamp_spec 0 0).1 (by norm_num)⟩

/-! ### Riemann rectangles (`updateRiemannRects`)

A rectangle is recorded as `(x, y, width, height)` in screen pixels; the
source appends an SVG `rect` only when `rectH > 0`, which drops the
index-0 left-Riemann rectangle (its height is `f(0) = 0`). -/

/-- `updateRiemannRects(n)`: the list of rectangles appended for the
left-Riemann sum of `y = x²/10` on domain `[0, 10]` at `80` px/unit (x)
and `60` px/unit (y), with a 1px gap (`dx * 80 - 1`, floored at 1px). -/
def updateRiemannRects (n : ℕ) : List (ℚ × ℚ × ℚ × ℚ) :=
  let width : ℚ := 10
  let dx := width / n
  (List.range n).filterMap fun (i : ℕ) =>
    let xVal := (i : ℚ) * dx
    let yVal := xVal ^ 2 / 10
    let rectX := 100 + xVal * 80
    let rectW := dx * 80 - 1
    let rectH := yVal * 60
    let rectY := 800 - rectH
    if rectH > 0 then some (rectX, rectY, max 1 rectW, rectH) else none

theorem length_filterMap_of_isSome {α β : Type} (f : α → Option β)
    (l : List α) (h : ∀ a ∈ l, (f a).isSome) :
    (l.filterMap f).length = l.length := by
  induction l with
  | nil => rfl
  | cons a t ih =>
    rw [List.filterMap_cons]
    cases hfa : f a with
    | none =>
      exact absurd (h a (List.mem_cons_self a t)) (by simp [hfa])
    | some b =>
      simp only [List.length_cons,
        ih (fun x hx => h x (List.mem_cons_of_mem a hx))]

theorem updateRiemannRects_length {n : ℕ} (hn : 1 ≤ n) :
    (updateRiemannRects n).length = n - 1 := by
  obtain ⟨m, rfl⟩ : ∃ m, n = m + 1 := ⟨n - 1, (Nat.succ_pred_eq_of_pos hn).symm⟩
  simp only [updateRiemannRects]
  rw [List.range_succ_eq_map, List.filterMap_cons]
  have h0 : ¬ (((0 : ℕ) : ℚ) * (10 / ((m + 1 : ℕ) : ℚ))) ^ 2 / 10 * 60 > 0 := by
    norm_num
  rw [if_neg h0, List.filterMap_map,
    length_filterMap_of_isSome _ _ ?_, List.length_range]
  · omega
  · intro j hj
    simp only [Function.comp_apply, Nat.succ_eq_add_one]
    split_ifs with hc
    · rfl
    · exfalso
      apply hc
      have hj1 : (0 : ℚ) < ((j + 1 : ℕ) : ℚ) := by exact_mod_cast Nat.succ_pos j
      have hm1 : (0 : ℚ) < ((m + 1 : ℕ) : ℚ) := by exact_mod_cast Nat.succ_pos m
      have hx : (0 : ℚ) < ((j + 1 : ℕ) : ℚ) * (10 / ((m + 1 : ℕ) : ℚ)) :=
        mul_pos hj1 (div_pos (by norm_num) hm1)
      exact mul_pos (div_pos (pow_pos hx 2) (by norm_num : (0 : ℚ) < 10))
        (by norm_num : (0 : ℚ) < 60)

theorem updateRiemannRects_width {n : ℕ} {r : ℚ × ℚ × ℚ × ℚ}
    (hr : r ∈ updateRiemannRects n) :
    r.2.2.1 = max 1 ((10 / (n : ℚ)) * 80 - 1) := by
  simp only [updateRiemannRects, List.mem_filterMap] at hr
  obtain ⟨i, _, hi⟩ := hr
  split_ifs at hi
  · cases hi
    rfl

/-- C1 counterexample: with N = 2 the code produces exactly 1 rectangle,
not 2 (the index-0 rectangle has height 0 and is skipped). -/
theorem riemann_rects_count_cex :
    (updateRiemannRects 2).length = 1 ∧ (1 : ℕ) ≠ 2 := by
  constructor
  · rw [updateRiemannRects_length (by norm_num)]
  · decide

/-- C1 amended: updating the rectangle set for N draws exactly N − 1
rectangles (the index-0 left-Riemann rectangle has height 0 and is
omitted); with N = 2 exactly 1 rectangle is produced, and with N = 50
exactly 49 rectangles are produced, each drawn with screen width
`(10/50) * 80 − 1` px, i.e. on slots of width 0.2 domain units. -/
theorem riemann_rects_amended :
    (∀ n : ℕ, 1 ≤ n → (updateRiemannRects n).length = n - 1) ∧
    (updateRiemannRects 2).length = 1 ∧
    (updateRiemannRects 50).length = 49 ∧
    (∀ r ∈ updateRiemannRects 50, r.2.2.1 = (10 : ℚ) / 50 * 80 - 1) := by
  refine ⟨fun n hn => updateRiemannRects_length hn, ?_, ?_, ?_⟩
  · exact updateRiemannRects_length (by norm_num)
  · exact updateRiemannRects_length (by norm_num)
  · intro r hr
    rw [updateRiemannRects_width hr]
    norm_num

/-- Witness for `riemann_rects_amended`: concrete instantiation of the
quantified part at N = 3. -/
theorem riemann_rects_amended_witness :
    1 ≤ 3 ∧ (updateRiemannRects 3).length = 3 - 1 :=
  ⟨by decide, riemann_rects_amended.1 3 (by decide)⟩

/-! ### JS numbers and numeric string parsing -/

/-- A JS number outcome: either an actual (finite) number, modelled as a
rational, or NaN.  Non-finite literals (`Infinity`) do not occur in this
code's inputs and are outside the modelled fragment. -/
inductive JSNum where
  | nan
  | num (q : ℚ)
deriving DecidableEq, Repr

/-- A JS value as it appears in widget configs: a number, a string, or
`undefined`. -/
inductive JSVal where
  | num (q : ℚ)
  | str (s : String)
  | undef
deriving DecidableEq, Repr

/-- JS whitespace recognised when trimming the front of numeric
strings. -/
def isJSSpace (c : Char) : Bool :=
  c == ' ' || c == '\t' || c == '\n' || c == '\r' || c == '\x0b' || c == '\x0c'

def digitVal (c : Char) : ℕ := c.toNat - '0'.toNat

def natOfDigits (ds : List Char) : ℕ :=
  ds.foldl (fun a c => 10 * a + digitVal c) 0

/-- Model of JS `parseFloat` on a character list: skip leading
whitespace, optional sign, decimal digits with optional fraction and
optional exponent; `NaN` when no digits are found. -/
def jsParseFloat (cs : List Char) : JSNum :=
  let cs := cs.dropWhile (isJSSpace ·)
  let signed : Bool × List Char := match cs with
    | '-' :: t => (true, t)
    | '+' :: t => (false, t)
    | _ => (false, cs)
  let neg := signed.1
  let cs1 := signed.2
  let intDigits := cs1.takeWhile (·.isDigit)
  let rest := cs1.drop intDigits.length
  let fracRead : List Char × List Char := match rest with
    | '.' :: t => (t.takeWhile (·.isDigit), t.drop (t.takeWhile (·.isDigit)).length)
    | _ => ([], rest)
  let fracDigits := fracRead.1
  let rest2 := fracRead.2
  if intDigits.isEmpty && fracDigits.isEmpty then JSNum.nan
  else
    let mantissa : ℚ :=
      (natOfDigits intDigits : ℚ) +
        (natOfDigits fracDigits : ℚ) / (10 : ℚ) ^ fracDigits.length
    let exp : ℤ := match rest2 with
      | e :: t =>
        if e == 'e' || e == 'E' then
          let esigned : ℤ × List Char := match t with
            | '-' :: u => ((-1 : ℤ), u)
            | '+' :: u => ((1 : ℤ), u)
            | _ => ((1 : ℤ), t)
          let eds := esigned.2.takeWhile (·.isDigit)
          if eds.isEmpty then 0 else esigned.1 * (natOfDigits eds : ℤ)
        else 0
      | [] => 0
    let scaled : ℚ :=
      if 0 ≤ exp then mantissa * (10 : ℚ) ^ exp.toNat
      else mantissa / (10 : ℚ) ^ (-exp).toNat
    JSNum.num (if neg then -scaled else scaled)

/-- `parseWeight`: a number passes through unchanged; anything else goes
through `parseFloat`, with `NaN` defaulting to 0.  (`parseFloat` of
`undefined` coerces to the string `"undefined"`, which is NaN, hence
0.) -/
def parseWeight (val : JSVal) : ℚ :=
  match val with
  | .num q => q
  | .str s =>
    match jsParseFloat s.toList with
    | .num q => q
    | .nan => 0
  | .undef => 0

/-! ### Balance scale beam rotation (`updateBeamRotation`) -/

/-- `updateBeamRotation`: the discrete beam angle in degrees — 0 when the
sides are equal, −20 when left is heavier, +20 when right is heavier. -/
def updateBeamRotation (left right : ℚ) : ℤ :=
  if left > right then -20
  else if right > left then 20
  else 0

/-- C5: the beam rotation computed from the parsed weights is discrete:
0 when the sides are equal, −20 when left exceeds right, +20 when right
exceeds left; in particular the configs (5,5), (5,2), (2,5) yield 0, −20
and +20 respectively. -/
theorem beam_rotation_spec :
    updateBeamRotation (parseWeight (JSVal.num 5)) (parseWeight (JSVal.num 5)) = 0 ∧
    updateBeamRotation (parseWeight (JSVal.num 5)) (parseWeight (JSVal.num 2)) = -20 ∧
    updateBeamRotation (parseWeight (JSVal.num 2)) (parseWeight (JSVal.num 5)) = 20 ∧
    (∀ l r : ℚ, l = r → updateBeamRotation l r = 0) ∧
    (∀ l r : ℚ, r < l → updateBeamRotation l r = -20) ∧
    (∀ l r : ℚ, l < r → updateBeamRotation l r = 20) := by
  refine ⟨by decide, by decide, by decide, ?_, ?_, ?_⟩ <;>
    intro l r h <;> simp only [updateBeamRotation] <;> split_ifs <;>
    first | rfl | linarith

/-- Witness for `beam_rotation_spec`: concrete instantiation of its
quantified implications. -/
theorem beam_rotation_spec_witness :
    ((1 : ℚ) < 3 ∧ updateBeamRotation 3 1 = -20) ∧
    ((1 : ℚ) < 4 ∧ updateBeamRotation 1 4 = 20) :=
  ⟨⟨by norm_num, beam_rotation_spec.2.2.2.2.1 3 1 (by norm_num)⟩,
    ⟨by norm_num, beam_rotation_spec.2.2.2.2.2 1 4 (by norm_num)⟩⟩

/-! ### Unit circle handle (`handleUnitCircleDrag`), over `ℝ` -/

/-- Model of JS `Math.atan2` (signed-zero distinctions collapse in
`ℝ`). -/
noncomputable def atan2 (y x : ℝ) : ℝ :=
  if 0 < x then Real.arctan (y / x)
  else if x < 0 then
    (if 0 ≤ y then Real.arctan (y / x) + Real.pi
     else Real.arctan (y / x) - Real.pi)
  else if 0 < y then Real.pi / 2
  else if y < 0 then -(Real.pi / 2)
  else 0

/-- `handleUnitCircleDrag`: compute the angle from the circle center
(500,500) to the raw pointer position via `atan2` and place the element
at `center + radius · (cos θ, sin θ)` with radius 200. -/
noncomputable def handleUnitCircleDrag (rawX rawY : ℝ) : ℝ × ℝ :=
  let centerX : ℝ := 500
  let centerY : ℝ := 500
  let radius : ℝ := 200
  let dx := rawX - centerX
  let dy := rawY - centerY
  let theta := atan2 dy dx
  (centerX + radius * Real.cos theta, centerY + radius * Real.sin theta)

/-- C2: for every raw pointer position, the element position produced by
the circle-handle move step has Euclidean distance exactly 200 from the
circle center (500,500) — the on-circle invariant is preserved by every
move. -/
theorem unit_circle_drag_on_circle (rawX rawY : ℝ) :
    Real.sqrt (((handleUnitCircleDrag rawX rawY).1 - 500) ^ 2 +
      ((handleUnitCircleDrag rawX rawY).2 - 500) ^ 2) = 200 := by
  simp only [handleUnitCircleDrag]
  generalize atan2 (rawY - 500) (rawX - 500) = θ
  have key : (500 + 200 * Real.cos θ - 500) ^ 2 +
      (500 + 200 * Real.sin θ - 500) ^ 2 = 40000 := by
    have h := Real.sin_sq_add_cos_sq θ
    nlinarith [h]
  rw [key, show (40000 : ℝ) = 200 ^ 2 by norm_num,
    Real.sqrt_sq (by norm_num : (0 : ℝ) ≤ 200)]

/-! ### Animator (`animateMove`)

The frame loop is driven by the host's frame callback; we model one run
as a fold over the (strictly processed prefix of the) list of frame
timestamps.  The second component counts `onComplete` invocations: the
loop re-schedules itself while `progress < 1` and otherwise calls
`onComplete` once and stops. -/

/-- The position the animator writes at one frame with timestamp `now`:
`progress = min(elapsed/duration, 1)`, `ease = 1 - (1-progress)³`,
`position = from + (to - from) * ease` componentwise. -/
def animFramePos (fromP toP : ℚ × ℚ) (duration startTime now : ℚ) : ℚ × ℚ :=
  let elapsed := now - startTime
  let progress := min (elapsed / duration) 1
  let ease := 1 - (1 - progress) ^ 3
  (fromP.1 + (toP.1 - fromP.1) * ease, fromP.2 + (toP.2 - fromP.2) * ease)

/-- `animateMove` run over a list of frame timestamps: returns the
positions written (in order) and the number of `onComplete`
invocations. -/
def animateMove (fromP toP : ℚ × ℚ) (duration startTime : ℚ) :
    List ℚ → List (ℚ × ℚ) × ℕ
  | [] => ([], 0)
  | now :: rest =>
    let elapsed := now - startTime
    let progress := min (elapsed / duration) 1
    let ease := 1 - (1 - progress) ^ 3
    let pos := (fromP.1 + (toP.1 - fromP.1) * ease,
      fromP.2 + (toP.2 - fromP.2) * ease)
    if progress < 1 then
      let next := animateMove fromP toP duration startTime rest
      (pos :: next.1, next.2)
    else ([pos], 1)

/-- C7: every frame position follows `from + (to - from) * ease` with
`ease = 1 - (1-t)³`, `t = min(elapsed/duration, 1)`; `onComplete` runs at
most once, when it runs the final frame's position is exactly `to`, and
it does run whenever some processed timestamp reaches
`startTime + duration` — after that final frame and never before. -/
theorem animate_move_spec (fromP toP : ℚ × ℚ) (d s : ℚ) (hd : 0 < d)
    (times : List ℚ) :
    (∃ k, k ≤ times.length ∧
      (animateMove fromP toP d s times).1 =
        (times.take k).map (animFramePos fromP toP d s)) ∧
    (animateMove fromP toP d s times).2 ≤ 1 ∧
    ((animateMove fromP toP d s times).2 = 1 →
      (animateMove fromP toP d s times).1.getLast? = some toP) ∧
    ((∃ now ∈ times, s + d ≤ now) → (animateMove fromP toP d s times).2 = 1) := by
  induction times with
  | nil =>
    refine ⟨⟨0, by simp, by simp [animateMove]⟩, by simp [animateMove], ?_, ?_⟩
    · intro h
      simp [animateMove] at h
    · rintro ⟨now, hmem, -⟩
      simp at hmem
  | cons now rest ih =>
    simp only [animateMove]
    by_cases hlt : min ((now - s) / d) 1 < 1
    · rw [if_pos hlt]
      obtain ⟨⟨k, hk, heq⟩, hle, hlast, hcomp⟩ := ih
      refine ⟨⟨k + 1, by simpa using hk, ?_⟩, hle, ?_, ?_⟩
      · simp only [List.take_succ_cons, List.map_cons, heq]
        rfl
      · intro h1
        have h3 := hlast h1
        cases hn1 : (animateMove fromP toP d s rest).1 with
        | nil => rw [hn1] at h3; cases h3
        | cons b u =>
          rw [hn1] at h3
          simpa [List.getLast?_cons_cons] using h3
      · rintro ⟨x, hx, hxd⟩
        rcases List.mem_cons.1 hx with rfl | hxr
        · exfalso
          have h1 : (1 : ℚ) ≤ (x - s) / d := by
            rw [le_div_iff hd]
            linarith
          rw [min_eq_right h1] at hlt
          exact lt_irrefl _ hlt
        · exact hcomp ⟨x, hxr, hxd⟩
    · rw [if_neg hlt]
      have hprog : min ((now - s) / d) 1 = 1 :=
        le_antisymm (min_le_right _ _) (not_lt.1 hlt)
      refine ⟨⟨1, by simp, ?_⟩, le_refl 1, ?_, fun _ => rfl⟩
      · simp only [List.take_succ_cons, List.take_zero, List.map_cons,
          List.map_nil]
        rfl
      · intro h1
        simp only [List.getLast?_singleton, Option.some_inj]
        rw [hprog]
        have e1 : fromP.1 + (toP.1 - fromP.1) * (1 - (1 - (1 : ℚ)) ^ 3) = toP.1 := by
          ring
        have e2 : fromP.2 + (toP.2 - fromP.2) * (1 - (1 - (1 : ℚ)) ^ 3) = toP.2 := by
          ring
        rw [e1, e2]

/-- Witness for `animate_move_spec`: a concrete run with one frame past
the deadline completes exactly once. -/
theorem animate_move_spec_witness :
    (0 : ℚ) < 500 ∧ (animateMove (0, 0) (10, 10) 500 0 [600]).2 = 1 :=
  ⟨by norm_num,
    (animate_move_spec (0, 0) (10, 10) 500 0 (by norm_num) [600]).2.2.2
      ⟨600, by simp, by norm_num⟩⟩

/-! ### Function-machine rule application (`animateProcess`, transform step) -/

/-- Model of JS `parseInt` (radix unspecified): skip leading whitespace,
optional sign, a `0x`/`0X` prefix switches to hexadecimal, otherwise
leading decimal digits; `NaN` when no digits are found. -/
def hexVal? (c : Char) : Option ℕ :=
  if c.isDigit then some (c.toNat - '0'.toNat)
  else if 'a' ≤ c ∧ c ≤ 'f' then some (c.toNat - 'a'.toNat + 10)
  else if 'A' ≤ c ∧ c ≤ 'F' then some (c.toNat - 'A'.toNat + 10)
  else none

def jsParseInt (cs : List Char) : JSNum :=
  let cs := cs.dropWhile (isJSSpace ·)
  let signed : Bool × List Char := match cs with
    | '-' :: t => (true, t)
    | '+' :: t => (false, t)
    | _ => (false, cs)
  let neg := signed.1
  let cs1 := signed.2
  let hexTail : Option (List Char) := match cs1 with
    | '0' :: x :: t => if x == 'x' || x == 'X' then some t else none
    | _ => none
  match hexTail with
  | some t =>
    let hds := t.takeWhile (fun c => (hexVal? c).isSome)
    if hds.isEmpty then JSNum.nan
    else
      let v := hds.foldl (fun a c => 16 * a + (hexVal? c).getD 0) 0
      JSNum.num (if neg then -(v : ℚ) else (v : ℚ))
  | none =>
    let ds := cs1.takeWhile (·.isDigit)
    if ds.isEmpty then JSNum.nan
    else JSNum.num (if neg then -(natOfDigits ds : ℚ) else (natOfDigits ds : ℚ))

/-- JS `+` on numbers: NaN absorbs. -/
def jsAdd : JSNum → JSNum → JSNum
  | .num a, .num b => .num (a + b)
  | _, _ => .nan

/-- JS `*` on numbers: NaN absorbs. -/
def jsMul : JSNum → JSNum → JSNum
  | .num a, .num b => .num (a * b)
  | _, _ => .nan

/-- The transform step of `animateProcess`: read the payload with
`parseInt`; a rule containing `'+'` adds `parseInt` of the text after the
first `'+'` (via `rule.split('+')[1]`), else a rule containing `'*'`
multiplies likewise; otherwise the value stays `currentVal`. -/
def animateProcessTransform (datasetVal : List Char) (rule : List Char) : JSNum :=
  let currentVal := jsParseInt datasetVal
  if rule.contains '+' then
    jsAdd currentVal (jsParseInt ((rule.splitOn '+').getD 1 []))
  else if rule.contains '*' then
    jsMul currentVal (jsParseInt ((rule.splitOn '*').getD 1 []))
  else currentVal

/-- C8 counterexample: the malformed rule `"+x"` (contains `'+'` but no
parseable integer after it) does NOT leave the payload 2 unchanged — it
turns it into NaN. -/
theorem rule_transform_cex :
    animateProcessTransform "2".toList "+x".toList = JSNum.nan ∧
    JSNum.nan ≠ JSNum.num 2 := by
  constructor
  · decide
  · decide

/-- C8 amended: rules containing neither `'+'` nor `'*'` leave the
payload unchanged; a rule containing `'+'` (resp. `'*'`, when no `'+'`)
adds (multiplies) `parseInt` of the segment after the first separator,
and when that segment is not a parseable integer the payload becomes NaN
rather than staying unchanged; payload 2 with rule `"+ 2"` becomes 4. -/
theorem rule_transform_amended :
    (∀ v r : List Char, r.contains '+' = false → r.contains '*' = false →
      animateProcessTransform v r = jsParseInt v) ∧
    (∀ v r : List Char, r.contains '+' = true →
      animateProcessTransform v r =
        jsAdd (jsParseInt v) (jsParseInt ((r.splitOn '+').getD 1 []))) ∧
    (∀ v r : List Char, r.contains '+' = false → r.contains '*' = true →
      animateProcessTransform v r =
        jsMul (jsParseInt v) (jsParseInt ((r.splitOn '*').getD 1 []))) ∧
    (∀ v r : List Char, r.contains '+' = true →
      jsParseInt ((r.splitOn '+').getD 1 []) = JSNum.nan →
      animateProcessTransform v r = JSNum.nan) ∧
    animateProcessTransform "2".toList "+ 2".toList = JSNum.num 4 := by
  refine ⟨?_, ?_, ?_, ?_, ?_⟩
  · intro v r h1 h2
    simp at h1 h2
    simp [animateProcessTransform, h1, h2]
  · intro v r h1
    simp at h1
    simp [animateProcessTransform, h1]
  · intro v r h1 h2
    simp at h1 h2
    simp [animateProcessTransform, h1, h2]
  · intro v r h1 h2
    simp only [animateProcessTransform]
    rw [if_pos h1, h2]
    cases jsParseInt v <;> rfl
  · have h : animateProcessTransform "2".toList "+ 2".toList =
        JSNum.num ((natOfDigits ['2'] : ℚ) + (natOfDigits ['2'] : ℚ)) := rfl
    have h2 : natOfDigits ['2'] = 2 := by decide
    rw [h, h2]
    norm_num

/-- Witness for `rule_transform_amended`: a rule with no operator leaves
the payload's parsed value unchanged. -/
theorem rule_transform_amended_witness :
    "abc".toList.contains '+' = false ∧ "abc".toList.contains '*' = false ∧
    animateProcessTransform "7".toList "abc".toList = jsParseInt "7".toList :=
  ⟨by decide, by decide,
    rule_transform_amended.1 "7".toList "abc".toList (by decide) (by decide)⟩

/-! ### Scene construction and `render` dispatch

The scene is modelled at the granularity of the direct children appended
to the SVG root (their tag names, in order), plus the registered drop
zones and any console warnings.  Children appended to nested groups
(projection lines, plate contents, Riemann rectangles — the latter are
modelled separately by `updateRiemannRects`) live inside their group's
single `g` entry. -/

structure DropZone where
  id : String
  x : ℚ
  y : ℚ
  width : ℚ
  height : ℚ
  type : String
  targetVal : String
deriving DecidableEq, Repr

structure Scene where
  shapes : List String := []
  dropZones : List DropZone := []
  warnings : List String := []
  beamAngle : Option ℤ := none
deriving DecidableEq, Repr

/-- Widget configuration fields used by the renderers. -/
structure Config where
  rule : Option String := none
  inputs : List ℚ := []
  leftWeight : JSVal := .undef
  rightWeight : JSVal := .undef
  showSine : Bool := false
  showCosine : Bool := false
deriving Repr

/-- `renderFunctionMachine`: input box, machine body, rule text, output
box, two pipes, one draggable input item; one drop zone over the input
box. -/
def renderFunctionMachine (config : Config) : Scene :=
  { shapes := ["rect", "rect", "text", "rect", "line", "line", "g"],
    dropZones := [⟨"input-box", 100, 400, 100, 100, "function_input", "input"⟩] }

/-- `renderBalanceScale`: base path, beam group (bar, two plate groups),
weight bank group; two plate drop zones; beam rotation computed from the
parsed weights. -/
def renderBalanceScale (config : Config) : Scene :=
  { shapes := ["path", "g", "g"],
    dropZones := [⟨"left-plate", 90, 400, 120, 400, "scale_plate", "left"⟩,
      ⟨"right-plate", 790, 400, 120, 400, "scale_plate", "right"⟩],
    beamAngle := some (updateBeamRotation (parseWeight config.leftWeight)
      (parseWeight config.rightWeight)) }

/-- The grid-line loop of `renderGrid`: `for (i = 100; i <= 900; i += 50)`
appends one vertical and one horizontal line per iteration. -/
def gridLineTags (i : ℕ) : List String :=
  if h : i ≤ 900 then "line" :: "line" :: gridLineTags (i + 50) else []
termination_by 901 - i
decreasing_by omega

/-- `renderGrid`: background rect, the grid-line loop, two bold axes, the
origin label, the draggable point group. -/
def renderGrid (config : Config) : Scene :=
  { shapes := ["rect"] ++ gridLineTags 100 ++ ["line", "line", "text", "g"] }

/-- `renderUnitCircle`: background rect, two axis lines, the circle, the
handle group, the projection group (sine/cosine lines are children of the
projection group, gated by the config flags), the info text. -/
def renderUnitCircle (config : Config) : Scene :=
  { shapes := ["rect", "line", "line", "circle", "g", "g", "text"] }

/-- `renderSlopeScanner`: two axes, the parabola path, the tangent group,
the scanner group. -/
def renderSlopeScanner (config : Config) : Scene :=
  { shapes := ["line", "line", "path", "g", "g"] }

/-- `renderRiemannSum`: two axes, the curve path, the rectangle container
group (filled by `updateRiemannRects`), the slider line, the slider
group. -/
def renderRiemannSum (config : Config) : Scene :=
  { shapes := ["line", "line", "path", "g", "line", "g"] }

/-- The supported widget kinds of the `render` switch. -/
def supportedVisualTypes : List String :=
  ["balance_scale_simple", "function_machine", "coordinate_grid",
    "unit_circle", "slope_scanner", "riemann_sum"]

/-- `VisualManager.render`: clear the canvas and the drop-zone list, then
dispatch on the widget kind; the default branch logs a warning and adds
nothing. -/
def render (type : String) (config : Config) : Scene :=
  if type = "balance_scale_simple" then renderBalanceScale config
  else if type = "function_machine" then renderFunctionMachine config
  else if type = "coordinate_grid" then renderGrid config
  else if type = "unit_circle" then renderUnitCircle config
  else if type = "slope_scanner" then renderSlopeScanner config
  else if type = "riemann_sum" then renderRiemannSum config
  else { warnings := ["Unknown visual type: " ++ type] }

/-- C9: rendering any kind outside the supported enumeration is total
(no exception), logs exactly one warning, and leaves the scene with no
shapes and no drop zones. -/
theorem render_unknown_kind_spec (type : String) (config : Config)
    (h : type ∉ supportedVisualTypes) :
    render type config =
      { shapes := [], dropZones := [],
        warnings := ["Unknown visual type: " ++ type], beamAngle := none } := by
  simp only [supportedVisualTypes, List.mem_cons, List.not_mem_nil, or_false,
    not_or] at h
  obtain ⟨h1, h2, h3, h4, h5, h6⟩ := h
  simp only [render, if_neg h1, if_neg h2, if_neg h3, if_neg h4, if_neg h5,
    if_neg h6]

/-- Witness for `render_unknown_kind_spec` at the concrete unknown kind
`"magic_carpet"` with the default config. -/
theorem render_unknown_kind_spec_witness :
    "magic_carpet" ∉ supportedVisualTypes ∧
    render "magic_carpet" {} =
      { shapes := [], dropZones := [],
        warnings := ["Unknown visual type: " ++ "magic_carpet"],
        beamAngle := none } :=
  ⟨by decide, render_unknown_kind_spec "magic_carpet" {} (by decide)⟩

/-! ### Transform-string parsing (`getTranslate`)

Model of the regex `/translate\(([^,]+),\s*([^)]+)\)/` with JS
backtracking semantics: the first capture is the maximal nonempty run of
non-comma characters after the literal `translate(`, followed by a
comma; after the comma, `\s*` greedily eats whitespace and `([^)]+)`
takes the maximal nonempty run of non-`)` characters, backtracking one
whitespace character when the run would otherwise be empty; the match is
attempted at each start position, leftmost first. -/

def translatePat : List Char := "translate(".toList

/-- Attempt the translate pattern anchored at the head of `cs`; on
success return the two capture groups. -/
def matchTranslateAt (cs : List Char) : Option (List Char × List Char) :=
  if cs.take translatePat.length = translatePat then
    let rest := cs.drop translatePat.length
    let g1 := rest.takeWhile (· != ',')
    if g1.isEmpty then none
    else
      match rest.drop g1.length with
      | ',' :: rest3 =>
        let run := rest3.takeWhile (· != ')')
        if run.isEmpty then none
        else
          match rest3.drop run.length with
          | ')' :: _ =>
            let ws := run.takeWhile (isJSSpace ·)
            let g2 := if ws.length < run.length then run.drop ws.length
              else run.drop (run.length - 1)
            some (g1, g2)
          | _ => none
      | _ => none
  else none

/-- Leftmost search of the translate pattern over all start positions. -/
def execTranslate : List Char → Option (List Char × List Char)
  | [] => none
  | c :: rest =>
    match matchTranslateAt (c :: rest) with
    | some r => some r
    | none => execTranslate rest

/-- `getTranslate`: `null`/`undefined` (modelled as `none`) and the empty
string are falsy and yield the default `(0, 0)`; otherwise the first
regex match's two groups go through `parseFloat`; no match yields the
default.  Total by construction — no input throws. -/
def getTranslate (transformStr : Option String) : JSNum × JSNum :=
  match transformStr with
  | none => (JSNum.num 0, JSNum.num 0)
  | some s =>
    if s = "" then (JSNum.num 0, JSNum.num 0)
    else
      match execTranslate s.toList with
      | some (g1, g2) => (jsParseFloat g1, jsParseFloat g2)
      | none => (JSNum.num 0, JSNum.num 0)

/-- C10: `getTranslate` is total over all inputs: a missing string yields
the default `(0, 0)`; when the translate pattern does not match anywhere
the result is exactly the default; and when it matches the result is the
`parseFloat` of the two captured components. -/
theorem get_translate_total_spec :
    getTranslate none = (JSNum.num 0, JSNum.num 0) ∧
    (∀ s : String, execTranslate s.toList = none →
      getTranslate (some s) = (JSNum.num 0, JSNum.num 0)) ∧
    (∀ s : String, ∀ g1 g2 : List Char,
      execTranslate s.toList = some (g1, g2) →
      getTranslate (some s) = (jsParseFloat g1, jsParseFloat g2)) := by
  refine ⟨rfl, ?_, ?_⟩
  · intro s h
    simp only [getTranslate]
    split_ifs with he
    · rfl
    · rw [h]
  · intro s g1 g2 h
    simp only [getTranslate]
    split_ifs with he
    · subst he
      cases h
    · rw [h]

/-- Witness for `get_translate_total_spec`: the concrete input
`"translate(3, 4)"` matches with groups `"3"` and `"4"`, and the result
is their `parseFloat`. -/
theorem get_translate_total_spec_witness :
    execTranslate ("translate(3, 4)".toList) = some ("3".toList, "4".toList) ∧
    getTranslate (some "translate(3, 4)") =
      (jsParseFloat "3".toList, jsParseFloat "4".toList) :=
  ⟨by decide,
    get_translate_total_spec.2.2 "translate(3, 4)" "3".toList "4".toList
      (by decide)⟩

end Visuals
